import Mathlib

/-!
Verification development for the ARIA conversational-agent core:
the lexical mood/anxiety/crisis estimators (analyzers/therapeutic_analyzer.py),
the personality-profile updater (analyzers/personality_analyzer.py),
the conversation stage graph (graph/conversation_graph.py), and the per-turn
orchestration workflow (graph/workflow.py).

Modelling conventions:
* Python floats are modelled as rationals (all constants in the code are
  decimal literals, represented exactly by `ℚ`).
* Python dicts are modelled as ordered association lists (insertion order
  preserved) or as record structures where the key set is fixed.
* Collaborator calls that are out of scope for the core (LLM generation,
  Zep memory, embedding store, the SEAL framework whose module is not part
  of the analysed sources) are passed in as explicit parameters; their
  observable side effects are recorded in an explicit `Effect` trace.
* A Python statement that raises `NameError` because the name is not
  imported in its module is modelled as `Except.error` at the exact point
  where evaluation reaches it.
-/

/-- Models Python `str.lower()` on a list of characters (ASCII case fold,
which is what `Char.toLower` performs and all the keyword tables need). -/
def pyLowerL (s : List Char) : List Char := s.map Char.toLower

/-- Prefix test: `isPrefixL needle hay` is true when `needle` is a prefix of `hay`. -/
def isPrefixL : List Char → List Char → Bool
  | [], _ => true
  | _ :: _, [] => false
  | a :: as, b :: bs => a == b && isPrefixL as bs

/-- Substring test: `pyInL needle hay` models the Python substring test `needle in hay`. -/
def pyInL (needle : List Char) : List Char → Bool
  | [] => isPrefixL needle []
  | b :: bs => isPrefixL needle (b :: bs) || pyInL needle bs

/-- Models Python `w in text.lower()` for a keyword `w` taken from one of
the fixed (already lower-case) keyword tables. -/
def occursIn (w : String) (text : String) : Bool :=
  pyInL w.toList (pyLowerL text.toList)

/-- Models `sum(1 for w in words if w in text.lower())`. -/
def countIn (words : List String) (text : String) : Nat :=
  words.countP (fun w => occursIn w text)

/-! ## Data model (models.py) -/

/-- The `ConversationMode` enumeration. -/
inductive ConversationMode where
  | COMPANION
  | THERAPEUTIC
  | CRISIS
  | ASSESSMENT
  | COACHING
deriving DecidableEq

/-- The string values of the `ConversationMode` enum members. -/
def ConversationMode.value : ConversationMode → String
  | .COMPANION => "companion"
  | .THERAPEUTIC => "therapeutic"
  | .CRISIS => "crisis"
  | .ASSESSMENT => "assessment"
  | .COACHING => "coaching"

/-- The `PersonalityTrait` enumeration. -/
inductive PersonalityTrait where
  | OPENNESS
  | CONSCIENTIOUSNESS
  | EXTRAVERSION
  | AGREEABLENESS
  | NEUROTICISM
  | EMPATHY
  | OPTIMISM
  | EMOTIONAL_STABILITY
deriving DecidableEq

/-- Source `PersonalityProfile` dataclass. Dicts become ordered association
lists; the `datetime` field becomes an abstract tick count. -/
structure PersonalityProfile where
  big_five : List (PersonalityTrait × ℚ) := []
  therapeutic_traits : List (String × ℚ) := []
  communication_preferences : List (String × ℚ) := []
  emotional_patterns : List String := []
  confidence_score : ℚ := 0
  last_updated : Nat := 0

/-- Source `TherapeuticAssessment` dataclass with its field defaults. -/
structure TherapeuticAssessment where
  mood_score : ℚ := 5
  anxiety_level : ℚ := 5
  stress_indicators : List String := []
  coping_strategies : List String := []
  risk_factors : List String := []
  protective_factors : List String := []
  therapeutic_goals : List String := []
  progress_metrics : List (String × ℚ) := []

/-- Source `SEALEdit` dataclass (the SEAL framework module itself is an external
collaborator; only the fields read by the workflow matter here). -/
structure SEALEdit where
  edit_id : String := ""
  edit_type : String := ""
  target_component : String := ""
  synthetic_data : List (List (String × String)) := []
  hyperparameters : List (String × String) := []
  effectiveness_score : ℚ := 0
  implementation_count : Nat := 0
  created_at : Nat := 0

/-- The part of the memory collaborator result that the workflow reads
(`memory_context["user_patterns"]["total_sessions"]` and the relationship
strength used only in prompt text). -/
structure MemoryContext where
  total_sessions : Nat := 0
  relationship_strength : ℚ := 0

/-- The `graph_context` dict populated by `_get_context`. -/
structure GraphContext where
  current_state : String
  suggested_prompt : String
deriving DecidableEq

/-- Source `ARIAState` dataclass: the single per-turn state record. A history
entry is a (role, content) pair; `graph_context` starts as the empty dict,
modelled by `none`. -/
structure ARIAState where
  user_id : String
  session_id : String
  current_message : String
  conversation_history : List (String × String)
  personality_profile : PersonalityProfile
  therapeutic_assessment : TherapeuticAssessment
  conversation_mode : ConversationMode
  context_vectors : List ℚ
  memory_context : MemoryContext
  seal_adaptations : List SEALEdit
  graph_context : Option GraphContext
  response : String := ""
  confidence : ℚ := 0
  next_action : String := ""

/-! ## TherapeuticAnalyzer (analyzers/therapeutic_analyzer.py) -/

/-- Source `mood_indicators["positive"]`. -/
def positiveMoodWords : List String :=
  ["happy", "great", "wonderful", "excellent", "fantastic", "amazing"]

/-- Source `mood_indicators["negative"]`. -/
def negativeMoodWords : List String :=
  ["sad", "down", "terrible", "awful", "horrible", "depressed"]

/-- Source `anxiety_indicators`. -/
def anxietyIndicators : List String :=
  ["anxious", "worried", "panic", "nervous", "scared", "frightened",
   "overwhelmed", "stressed", "tense", "restless"]

/-- Source `crisis_indicators`. -/
def crisisIndicators : List String :=
  ["suicide", "kill myself", "end it all", "can\x27t go on", "hopeless",
   "want to die", "better off dead", "no point", "give up"]

/-- Source `coping_strategies` taxonomy, in dict insertion order. -/
def copingTaxonomy : List (String × List String) :=
  [("cognitive", ["reframe", "perspective", "think differently", "challenge thoughts"]),
   ("behavioral", ["exercise", "walk", "breathe", "relax", "activity"]),
   ("social", ["talk", "friends", "family", "support", "help"]),
   ("mindfulness", ["meditate", "mindful", "present", "aware", "focus"])]

/-- Source `assess_mood`: base 5.0 adjusted by 0.5 per positive/negative hit,
clamped into [1, 10] by `max(1.0, min(10.0, mood_score))`. -/
def assessMood (text : String) : ℚ :=
  let positive_count := countIn positiveMoodWords text
  let negative_count := countIn negativeMoodWords text
  let mood_adjustment := ((positive_count : ℚ) - (negative_count : ℚ)) * 0.5
  let mood_score := 5.0 + mood_adjustment
  max 1.0 (min 10.0 mood_score)

/-- Source `assess_anxiety`: base 3.0 plus 1.5 per anxiety-keyword hit, clamped
into [1, 10]. -/
def assessAnxiety (text : String) : ℚ :=
  let anxiety_count := countIn anxietyIndicators text
  let anxiety_score := 3.0 + (anxiety_count : ℚ) * 1.5
  max 1.0 (min 10.0 anxiety_score)

/-- Source `detect_crisis`: is_crisis iff at least one crisis indicator is a
substring of the lower-cased text; risk is `min(count * 2.0, 10.0)`. -/
def detectCrisis (text : String) : Bool × ℚ :=
  let crisis_count := countIn crisisIndicators text
  (decide (0 < crisis_count), min ((crisis_count : ℚ) * 2.0) 10.0)

/-- Source `identify_coping_strategies`: ordered "category: phrase" tags over the
fixed taxonomy. -/
def identifyCopingStrategies (text : String) : List String :=
  copingTaxonomy.flatMap (fun cat =>
    (cat.2.filter (fun s => occursIn s text)).map (fun s => cat.1 ++ (": ") ++ s))

/-- The risk-factor tag appended on a crisis turn
(`f"Crisis indicators detected: {risk_level}"`; Python float formatting is
abstracted to the rational's string form). -/
def crisisTag (risk : ℚ) : String :=
  ("Crisis indicators detected: ") ++ toString risk

/-- One step of the coping-strategy loop: append unless already present
(the membership test runs against the list as mutated so far). -/
def appendIfNew (acc : List String) (s : String) : List String :=
  if s ∈ acc then acc else acc ++ [s]

/-- Source `update_therapeutic_assessment`: smooths mood and anxiety with
alpha = 0.3, appends unseen coping strategies, appends one risk tag when
crisis is detected. -/
def updateTherapeuticAssessment (a : TherapeuticAssessment) (text : String) :
    TherapeuticAssessment :=
  let new_mood := assessMood text
  let new_anxiety := assessAnxiety text
  let cr := detectCrisis text
  let cps := identifyCopingStrategies text
  let alpha : ℚ := 0.3
  let a := { a with
    mood_score := (1 - alpha) * a.mood_score + alpha * new_mood,
    anxiety_level := (1 - alpha) * a.anxiety_level + alpha * new_anxiety }
  let a := { a with coping_strategies := cps.foldl appendIfNew a.coping_strategies }
  if cr.1 then { a with risk_factors := a.risk_factors ++ [crisisTag cr.2] } else a

/-! ## PersonalityAnalyzer (analyzers/personality_analyzer.py) -/

/-- Source `personality_keywords`, in dict insertion order. -/
def personalityKeywords : List (PersonalityTrait × List String) :=
  [(.OPENNESS, ["creative", "curious", "open-minded", "imaginative", "artistic"]),
   (.CONSCIENTIOUSNESS, ["organized", "responsible", "reliable", "disciplined", "thorough"]),
   (.EXTRAVERSION, ["outgoing", "social", "talkative", "energetic", "assertive"]),
   (.AGREEABLENESS, ["kind", "cooperative", "trusting", "helpful", "sympathetic"]),
   (.NEUROTICISM, ["anxious", "worried", "stressed", "emotional", "sensitive"]),
   (.EMPATHY, ["understanding", "compassionate", "caring", "supportive"]),
   (.OPTIMISM, ["positive", "hopeful", "confident", "enthusiastic"])]

/-- Source `communication_patterns`, in dict insertion order. -/
def communicationPatterns : List (String × List String) :=
  [("formal", ["please", "thank you", "would you", "could you", "appreciate"]),
   ("casual", ["hey", "yeah", "cool", "awesome", "no problem"]),
   ("emotional", ["feel", "emotion", "heart", "soul", "deeply"]),
   ("analytical", ["think", "analyze", "consider", "evaluate", "logical"])]

/-- Source `analyze_text_for_personality`. The `np.random.normal(0, 0.1)` jitter
sample for each trait is an oracle parameter `jit`; everything else is the
source arithmetic: coverage normalised by `max(len(keywords)*0.3, 1)`,
capped at 1.0, jittered, clamped into [0, 1]. -/
def analyzeTextForPersonality (jit : PersonalityTrait → ℚ) (text : String) :
    List (PersonalityTrait × ℚ) :=
  personalityKeywords.map (fun p =>
    let matchCount := p.2.countP (fun w => occursIn w text)
    let score := min ((matchCount : ℚ) / max ((p.2.length : ℚ) * 0.3) 1) 1.0
    let score := score + jit p.1
    (p.1, max 0.0 (min 1.0 score)))

/-- Source `detect_communication_style`: fraction of style vocabulary present. -/
def detectCommunicationStyle (text : String) : List (String × ℚ) :=
  communicationPatterns.map (fun p =>
    let matchCount := p.2.countP (fun w => occursIn w text)
    (p.1, (matchCount : ℚ) / (p.2.length : ℚ)))

/-- One step of the profile-update loops: exponential smoothing for a key
already present in the dict, direct assignment (dict insertion at the end)
for a fresh key. -/
def smoothKey {K : Type} [DecidableEq K] (alpha : ℚ) (d : List (K × ℚ))
    (k : K) (v : ℚ) : List (K × ℚ) :=
  match d.lookup k with
  | some old => d.map (fun p => if p.1 = k then (k, (1 - alpha) * old + alpha * v) else p)
  | none => d ++ [(k, v)]

/-- The Python error message raised when `datetime` is referenced in a
module that never imports it. -/
def nameErrorDatetime : String :=
  "NameError: name \x27datetime\x27 is not defined"

/-- Source `update_personality_profile`. The trait and style smoothing and the
confidence bump follow the source; the final statement
`current_profile.last_updated = datetime.now()` raises `NameError` because
analyzers/personality_analyzer.py never imports `datetime`, so the call
always fails after mutating the profile locally. -/
def updatePersonalityProfile (current_profile : PersonalityProfile)
    (jit : PersonalityTrait → ℚ) (new_text : String) :
    Except String PersonalityProfile :=
  let new_traits := analyzeTextForPersonality jit new_text
  let new_comm_style := detectCommunicationStyle new_text
  let alpha : ℚ := 0.1
  let bf := new_traits.foldl (fun d kv => smoothKey alpha d kv.1 kv.2) current_profile.big_five
  let cp := new_comm_style.foldl (fun d kv => smoothKey alpha d kv.1 kv.2)
    current_profile.communication_preferences
  let _profile : PersonalityProfile := { current_profile with
    big_five := bf,
    communication_preferences := cp,
    confidence_score := min (current_profile.confidence_score + 0.05) 1.0 }
  Except.error nameErrorDatetime

/-! ## ConversationGraph (graph/conversation_graph.py) -/

/-- The transition list of `_build_conversation_graph`, in declaration
order: (source, target, condition). `networkx.DiGraph.successors` yields
targets in edge-insertion order, which is the order of this list filtered
by source. -/
def graphTransitions : List (String × String × String) :=
  [("initial", "greeting", "first_message"),
   ("greeting", "personality_assessment", "new_user"),
   ("greeting", "mood_check", "returning_user"),
   ("personality_assessment", "mood_check", "assessment_complete"),
   ("mood_check", "therapeutic_mode", "distress_detected"),
   ("mood_check", "companion_mode", "neutral_mood"),
   ("mood_check", "crisis_intervention", "crisis_detected"),
   ("therapeutic_mode", "coaching_mode", "progress_made"),
   ("therapeutic_mode", "crisis_intervention", "crisis_escalation"),
   ("companion_mode", "therapeutic_mode", "support_needed"),
   ("crisis_intervention", "therapeutic_mode", "crisis_resolved"),
   ("coaching_mode", "companion_mode", "goal_achieved"),
   ("assessment_mode", "therapeutic_mode", "issues_identified"),
   ("therapeutic_mode", "follow_up", "session_end"),
   ("companion_mode", "closure", "conversation_end"),
   ("coaching_mode", "closure", "coaching_complete")]

/-- Source `flow_graph.successors(current_state)` in edge-insertion order. -/
def successors (s : String) : List String :=
  (graphTransitions.filter (fun tr => tr.1 == s)).map (fun tr => tr.2.1)

/-- The `condition` attribute of the edge from `s` to `t`
(`edge_data.get("condition", "default")`). -/
def edgeCondition (s t : String) : String :=
  match graphTransitions.find? (fun tr => tr.1 == s && tr.2.1 == t) with
  | some tr => tr.2.2
  | none => "default"

/-- Source `_evaluate_transition_condition`: the named guard predicates over the
turn state; an unknown name falls back to the always-true default. -/
def evalTransitionCondition (cond : String) (context : ARIAState) : Bool :=
  if cond == "first_message" then context.conversation_history.length == 0
  else if cond == "new_user" then
    decide (context.personality_profile.confidence_score < 0.3)
  else if cond == "returning_user" then
    decide (0.3 ≤ context.personality_profile.confidence_score)
  else if cond == "assessment_complete" then
    decide (0.7 ≤ context.personality_profile.confidence_score)
  else if cond == "distress_detected" then
    decide (context.therapeutic_assessment.mood_score < 4.0 ∨
      7.0 < context.therapeutic_assessment.anxiety_level)
  else if cond == "neutral_mood" then
    decide (4.0 ≤ context.therapeutic_assessment.mood_score ∧
      context.therapeutic_assessment.mood_score ≤ 7.0 ∧
      context.therapeutic_assessment.anxiety_level ≤ 7.0)
  else if cond == "crisis_detected" then
    decide (context.conversation_mode = ConversationMode.CRISIS)
  else if cond == "progress_made" then
    decide (6.0 < context.therapeutic_assessment.mood_score)
  else if cond == "crisis_escalation" then
    decide (0 < context.therapeutic_assessment.risk_factors.length)
  else if cond == "support_needed" then
    [("help"), ("support"), ("struggling"), ("difficult")].any
      (fun w => occursIn w context.current_message)
  else if cond == "crisis_resolved" then
    decide (5.0 < context.therapeutic_assessment.mood_score ∧
      context.therapeutic_assessment.risk_factors.length = 0)
  else if cond == "goal_achieved" then
    decide (0 < context.therapeutic_assessment.therapeutic_goals.length)
  else if cond == "issues_identified" then
    decide (0 < context.therapeutic_assessment.stress_indicators.length)
  else if cond == "session_end" then
    decide (20 < context.conversation_history.length)
  else if cond == "conversation_end" then occursIn ("goodbye") context.current_message
  else if cond == "coaching_complete" then decide (0.8 < context.confidence)
  else true

/-- Source `get_next_state`: first outgoing edge (in declaration order) whose
guard holds wins; with no outgoing edge, or no matching guard, the state
stays put. -/
def getNextState (current_state : String) (context : ARIAState) : String :=
  let possible_states := successors current_state
  if possible_states.isEmpty then current_state
  else
    match possible_states.find?
        (fun n => evalTransitionCondition (edgeCondition current_state n) context) with
    | some n => n
    | none => current_state

/-- Source `_get_therapeutic_prompt`: the secondary decision tree inside the
`therapeutic_mode` stage hint. -/
def getTherapeuticPrompt (context : ARIAState) : String :=
  let mood := context.therapeutic_assessment.mood_score
  let anxiety := context.therapeutic_assessment.anxiety_level
  if mood < 3.0 then
    ("I can sense you\x27re going through a really tough time. Depression can feel overwhelming, but you don\x27t have to face this alone. What\x27s been weighing on you most heavily?")
  else if 8.0 < anxiety then
    ("It sounds like you\x27re experiencing a lot of anxiety right now. Let\x27s try to work through this together. Can you tell me what\x27s making you feel most anxious?")
  else if mood < 5.0 then
    ("I notice you might be feeling down today. It\x27s okay to have difficult days. What\x27s been on your mind?")
  else
    ("I\x27m here to support you. What would be most helpful for you right now?")

/-- Source `get_conversation_prompt`: the stage-to-hint lookup table. -/
def getConversationPrompt (state : String) (context : ARIAState) : String :=
  if state == "initial" then
    ("Welcome! I\x27m ARIA, your adaptive AI companion. How are you feeling today?")
  else if state == "greeting" then
    ("Hello! It\x27s nice to meet you. I\x27m here to provide support and companionship.")
  else if state == "personality_assessment" then
    ("I\x27d like to get to know you better. What kind of things do you enjoy talking about?")
  else if state == "mood_check" then
    ("How has your day been so far? I\x27m here to listen.")
  else if state == "therapeutic_mode" then getTherapeuticPrompt context
  else if state == "crisis_intervention" then
    ("I can hear that you\x27re going through a really difficult time right now. Your safety and wellbeing are important to me. Can you tell me more about how you\x27re feeling?")
  else if state == "companion_mode" then
    ("I\x27m glad we can chat together. What\x27s on your mind today?")
  else if state == "coaching_mode" then
    ("Let\x27s work together on your goals. What would you like to focus on?")
  else if state == "assessment_mode" then
    ("I\x27d like to understand better how you\x27ve been feeling lately. Can you share more about your experiences?")
  else if state == "closure" then
    ("Thank you for sharing with me today. Remember, I\x27m always here when you need support.")
  else if state == "follow_up" then
    ("How are you feeling after our conversation? Is there anything else I can help you with?")
  else ("How can I help you today?")

/-! ## ARIAWorkflow (graph/workflow.py) -/

/-- Observable collaborator side effects of one workflow run. -/
inductive Effect where
  | storePersonalityVector
  | generateSelfEdit
  | addConversation (session_id user_message response : String)
  | storeConversationVector
deriving DecidableEq

/-- The coaching keyword list of `_determine_mode`. -/
def coachingWords : List String := ["goal", "improve", "achieve"]

/-- The mode decision of `_determine_mode` (lines 120-134): crisis first,
then distress, then low profile confidence, then coaching keywords, else
companion. -/
def determineMode (state : ARIAState) : ConversationMode :=
  if (detectCrisis state.current_message).1 then ConversationMode.CRISIS
  else if state.therapeutic_assessment.mood_score < 4.0 ∨
      7.0 < state.therapeutic_assessment.anxiety_level then ConversationMode.THERAPEUTIC
  else if state.personality_profile.confidence_score < 0.3 then ConversationMode.ASSESSMENT
  else if coachingWords.any (fun w => occursIn w state.current_message) then
    ConversationMode.COACHING
  else ConversationMode.COMPANION

/-- Source `_determine_mode` as a node: stores the decided mode on the state. -/
def determineModeNode (state : ARIAState) : ARIAState :=
  { state with conversation_mode := determineMode state }

/-- Source `_determine_mode` with the crisis-detector call abstracted, to reason
about a detector that raises: the call on line 121 has no surrounding
`try`, so a detector error propagates out of the node unchanged. The
remaining chain is the source chain. -/
def determineModeWith (det : String → Except String (Bool × ℚ)) (state : ARIAState) :
    Except String ARIAState :=
  match det state.current_message with
  | Except.error e => Except.error e
  | Except.ok r =>
    Except.ok <|
      if r.1 then { state with conversation_mode := ConversationMode.CRISIS }
      else if state.therapeutic_assessment.mood_score < 4.0 ∨
          7.0 < state.therapeutic_assessment.anxiety_level then
        { state with conversation_mode := ConversationMode.THERAPEUTIC }
      else if state.personality_profile.confidence_score < 0.3 then
        { state with conversation_mode := ConversationMode.ASSESSMENT }
      else if coachingWords.any (fun w => occursIn w state.current_message) then
        { state with conversation_mode := ConversationMode.COACHING }
      else { state with conversation_mode := ConversationMode.COMPANION }

/-- The conditional-edge table installed on `determine_mode` by
`_build_workflow`: CRISIS routes straight to `generate_response`;
every other mode routes to `get_context`. -/
def routeTarget : ConversationMode → String
  | ConversationMode.CRISIS => "generate_response"
  | ConversationMode.THERAPEUTIC => "get_context"
  | ConversationMode.COMPANION => "get_context"
  | ConversationMode.ASSESSMENT => "get_context"
  | ConversationMode.COACHING => "get_context"

/-- Source `_analyze_input`: stores the memory collaborator context and the query
embedding (both external collaborator results, passed as parameters). -/
def analyzeInputNode (ctx : MemoryContext) (query_vector : List ℚ)
    (state : ARIAState) : ARIAState :=
  { state with memory_context := ctx, context_vectors := query_vector }

/-- Source `_update_personality`: bumps confidence to 0.5 for returning users,
then calls `update_personality_profile`, which always raises `NameError`
(missing `datetime` import); the exception propagates out of the node and
`store_personality_vector` on line 111 is never reached. -/
def updatePersonalityNode (jit : PersonalityTrait → ℚ) (state : ARIAState) :
    List Effect × Except String ARIAState :=
  let state :=
    if 0 < state.memory_context.total_sessions then
      { state with personality_profile :=
          { state.personality_profile with confidence_score := 0.5 } }
    else state
  match updatePersonalityProfile state.personality_profile jit state.current_message with
  | Except.error e => ([], Except.error e)
  | Except.ok pp =>
    ([Effect.storePersonalityVector], Except.ok { state with personality_profile := pp })

/-- Source `_update_therapeutic`. -/
def updateTherapeuticNode (state : ARIAState) : ARIAState :=
  { state with therapeutic_assessment :=
      updateTherapeuticAssessment state.therapeutic_assessment state.current_message }

/-- Source `_get_context`: always evaluates the stage graph from `"initial"` and
stores the reached stage plus its prompt hint. -/
def getContextNode (state : ARIAState) : ARIAState :=
  let current_graph_state := getNextState ("initial") state
  let gc : GraphContext :=
    { current_state := current_graph_state,
      suggested_prompt := getConversationPrompt current_graph_state state }
  { state with graph_context := some gc }

/-- The fixed fallback text of `_generate_response`. -/
def fallbackResponse : String :=
  "I\x27m here to help you. Could you tell me more about what\x27s on your mind?"

/-- Source `_generate_response`: the LLM call result is a parameter; on success
the generated text is stored with confidence 0.8, on failure the
pre-assigned fallback text and confidence 0.3 survive (the prompt building
and history marshalling before the `try` are pure and cannot raise). -/
def generateResponseNode (llm : Except String String) (state : ARIAState) : ARIAState :=
  match llm with
  | Except.ok text => { state with response := text, confidence := 0.8 }
  | Except.error _ => { state with response := fallbackResponse, confidence := 0.3 }

/-- Source `_apply_seal_adaptation`: with non-empty history, appends the edit the
SEAL collaborator generates and, when the edit carries hyperparameters,
nudges confidence by `effectiveness_score * 0.1` capped at 1.0. -/
def applySealNode (gen : ARIAState → SEALEdit) (state : ARIAState) :
    List Effect × ARIAState :=
  if 0 < state.conversation_history.length then
    let seal_edit := gen state
    let state := { state with seal_adaptations := state.seal_adaptations ++ [seal_edit] }
    let state :=
      if seal_edit.hyperparameters ≠ [] then
        { state with
          confidence := min (state.confidence + seal_edit.effectiveness_score * 0.1) 1.0 }
      else state
    ([Effect.generateSelfEdit], state)
  else ([], state)

/-- Source `_update_memory`: `add_conversation` (lines 277-288) records the turn;
the metadata dict on lines 290-297 then evaluates `datetime.now()`, which
raises `NameError` because graph/workflow.py never imports `datetime`, so
`store_conversation_vector` is never reached and the node errors after
recording. -/
def updateMemoryNode (state : ARIAState) : List Effect × Except String ARIAState :=
  ([Effect.addConversation state.session_id state.current_message state.response],
   Except.error nameErrorDatetime)

/-- The tail of the workflow from `generate_response` on, following the
static edges `generate_response → apply_seal → update_memory`. -/
def runFromGenerateResponse (llm : Except String String) (gen : ARIAState → SEALEdit)
    (state : ARIAState) : List Effect × Except String ARIAState :=
  let st1 := generateResponseNode llm state
  let p1 := applySealNode gen st1
  let p2 := updateMemoryNode p1.2
  (p1.1 ++ p2.1, p2.2)

/-- The workflow from `determine_mode` on, with the crisis detector
abstracted: the conditional edge skips `get_context` exactly for CRISIS. -/
def runFromDetermineModeWith (det : String → Except String (Bool × ℚ))
    (llm : Except String String) (gen : ARIAState → SEALEdit) (state : ARIAState) :
    List Effect × Except String ARIAState :=
  match determineModeWith det state with
  | Except.error e => ([], Except.error e)
  | Except.ok st1 =>
    let st2 :=
      if st1.conversation_mode = ConversationMode.CRISIS then st1 else getContextNode st1
    runFromGenerateResponse llm gen st2

/-- The real detector wrapped for `determineModeWith`: `detect_crisis`
itself is total and never raises. -/
def realDetector (message : String) : Except String (Bool × ℚ) :=
  Except.ok (detectCrisis message)

/-- One full `workflow.ainvoke` run:
`analyze_input → update_personality → update_therapeutic → determine_mode
→ (conditional) → generate_response → apply_seal → update_memory`,
with collaborator results as parameters. A node exception aborts the run
(LangGraph propagates it), keeping the effects emitted so far. -/
def runWorkflow (ctx : MemoryContext) (query_vector : List ℚ)
    (jit : PersonalityTrait → ℚ) (llm : Except String String)
    (gen : ARIAState → SEALEdit) (state : ARIAState) :
    List Effect × Except String ARIAState :=
  let st1 := analyzeInputNode ctx query_vector state
  match updatePersonalityNode jit st1 with
  | (effs, Except.error e) => (effs, Except.error e)
  | (effs, Except.ok st2) =>
    let st3 := updateTherapeuticNode st2
    let p := runFromDetermineModeWith realDetector llm gen st3
    (effs ++ p.1, p.2)

/-- The fixed apology of `process_message`: any exception escaping
`workflow.ainvoke` is caught on lines 90-92 and replaced by this text. -/
def apologyResponse : String :=
  "I apologize, but I encountered an issue processing your message. Please try again."

/-- The `try` block of `process_message` (lines 78-92): a completed run
returns its `response` field, a workflow exception yields the apology. -/
def processBoundary : Except String ARIAState → String
  | Except.ok result => result.response
  | Except.error _ => apologyResponse

/-- The fresh per-turn state built on lines 60-72 of `process_message`
(empty profile, fresh assessment, COMPANION, empty contexts). The source
line `personality_profile=PersonalityProfile()` would itself raise
`NameError` because workflow.py does not import `PersonalityProfile`; the
record below is the state that line is meant to build, so that the runs
behind it can be analysed. -/
def initialTurnState (user_message session_id user_id : String)
    (history : List (String × String)) : ARIAState :=
  { user_id := user_id, session_id := session_id,
    current_message := user_message,
    conversation_history := history,
    personality_profile := {},
    therapeutic_assessment := {},
    conversation_mode := ConversationMode.COMPANION,
    context_vectors := [],
    memory_context := {},
    seal_adaptations := [],
    graph_context := none }

/-! ## Concrete inputs used by witnesses and counterexamples -/

/-- A SEAL collaborator stub returning the all-default edit. -/
def sealGen0 : ARIAState → SEALEdit := fun _ => {}

/-- A crisis detector that raises, for the failure analysis of
`_determine_mode`. -/
def failingDetector : String → Except String (Bool × ℚ) :=
  fun _ => Except.error ("detector failure")

/-- A second raising detector, used independently of `failingDetector`. -/
def failingDetectorB : String → Except String (Bool × ℚ) :=
  fun _ => Except.error ("boom")

/-- The crisis message of the end-to-end scenario. -/
def crisisMessage : String := "I feel hopeless and want to die"

/-- A crisis turn with low mood and a coaching keyword also present. -/
def stCrisisMix : ARIAState :=
  { initialTurnState ("I feel hopeless and want to achieve my goal") ("s1") ("u1") [] with
    therapeutic_assessment := { mood_score := 2, anxiety_level := 2 } }

/-- A non-crisis turn with low mood. -/
def stLowMood : ARIAState :=
  { initialTurnState ("everything is heavy today") ("s1") ("u1") [] with
    therapeutic_assessment := { mood_score := 2, anxiety_level := 2 } }

/-- A calm turn with an unknown user profile. -/
def stNewUser : ARIAState :=
  { initialTurnState ("hello there") ("s1") ("u1") [] with
    therapeutic_assessment := { mood_score := 5, anxiety_level := 3 } }

/-- A calm turn, known profile, coaching keyword present. -/
def stCoaching : ARIAState :=
  { initialTurnState ("I want to improve my cooking") ("s1") ("u1") [] with
    therapeutic_assessment := { mood_score := 5, anxiety_level := 3 },
    personality_profile := { confidence_score := 1 } }

/-- A calm turn, known profile, no coaching keyword. -/
def stSmallTalk : ARIAState :=
  { initialTurnState ("nice weather today") ("s1") ("u1") [] with
    therapeutic_assessment := { mood_score := 5, anxiety_level := 3 },
    personality_profile := { confidence_score := 1 } }

/-- A turn used for the raising-detector analysis. -/
def stDetectorTurn : ARIAState := initialTurnState ("I want to die") ("s2") ("u2") []

/-- A second turn for the raising-detector analysis. -/
def stDetectorTurnB : ARIAState := initialTurnState ("hello") ("s3") ("u3") []

/-- A `mood_check` context with mood 8.0 and anxiety 2.0 (the C6 scenario). -/
def stMoodEight : ARIAState :=
  { initialTurnState ("hi") ("s6") ("u6") [] with
    therapeutic_assessment := { mood_score := 8.0, anxiety_level := 2.0 } }

/-- A `mood_check` context with mood 6.0 and anxiety 2.0. -/
def stMoodSix : ARIAState :=
  { initialTurnState ("hi") ("s6") ("u6") [] with
    therapeutic_assessment := { mood_score := 6.0, anxiety_level := 2.0 } }

/-- The crisis turn fed to the full workflow run. -/
def stCrisisRun : ARIAState := initialTurnState crisisMessage ("s4") ("u4") []

/-- An all-default assessment. -/
def assessment0 : TherapeuticAssessment := {}

/-! ## Shared lemmas -/

theorem countIn_pos_iff (ws : List String) (t : String) :
    0 < countIn ws t ↔ ∃ w ∈ ws, occursIn w t = true := by
  unfold countIn
  simp [List.countP_pos_iff]

theorem detectCrisis_fst_iff (t : String) :
    (detectCrisis t).1 = true ↔ ∃ w ∈ crisisIndicators, occursIn w t = true := by
  have : (detectCrisis t).1 = decide (0 < countIn crisisIndicators t) := rfl
  rw [this, decide_eq_true_eq, countIn_pos_iff]

theorem clamp_lower (x : ℚ) : 1 ≤ max 1.0 (min 10.0 x) := by
  rw [le_max_iff]
  left
  norm_num

theorem clamp_upper (x : ℚ) : max 1.0 (min 10.0 x) ≤ 10 := by
  rw [max_le_iff]
  exact ⟨by norm_num, le_trans (min_le_left _ _) (by norm_num)⟩

/-! ## Claim theorems -/

/-- Claim C3: `detect_crisis` returns `is_crisis = true` iff some listed
crisis phrase is a substring of the lower-cased text, returns
`risk = min(2.0 * hit_count, 10.0)` where `hit_count` counts the listed
phrases occurring, and the risk is monotone in the hit count, so
`is_crisis` is never false when a listed phrase is present. -/
theorem aria_C3_detect_crisis (t : String) :
    ((detectCrisis t).1 = true ↔ ∃ w ∈ crisisIndicators, occursIn w t = true)
    ∧ (detectCrisis t).2 = min ((countIn crisisIndicators t : ℚ) * 2.0) 10.0
    ∧ ∀ t' : String, countIn crisisIndicators t ≤ countIn crisisIndicators t' →
        (detectCrisis t).2 ≤ (detectCrisis t').2 := by
  refine ⟨detectCrisis_fst_iff t, rfl, ?_⟩
  intro t' h
  show min ((countIn crisisIndicators t : ℚ) * 2.0) 10.0
      ≤ min ((countIn crisisIndicators t' : ℚ) * 2.0) 10.0
  refine min_le_min (mul_le_mul_of_nonneg_right ?_ (by norm_num)) le_rfl
  exact_mod_cast h

/-- Witness for C3: the scenario message triggers crisis detection (via the
phrase "hopeless"), and risk at a phrase-free text is at most risk at the
scenario message. -/
theorem aria_C3_detect_crisis_w :
    (detectCrisis crisisMessage).1 = true
    ∧ (detectCrisis ("good morning")).2 ≤ (detectCrisis crisisMessage).2 := by
  constructor
  · exact (aria_C3_detect_crisis crisisMessage).1.mpr ⟨("hopeless"), by decide, by decide⟩
  · exact (aria_C3_detect_crisis ("good morning")).2.2 crisisMessage (by decide)

/-- Claim C5: `assess_mood` is the clamped base-5 keyword balance and
`assess_anxiety` the clamped base-3 count, and both always land in
[1, 10]. -/
theorem aria_C5_assess_bounds (t : String) :
    (assessMood t = max 1.0 (min 10.0 (5.0 +
        ((countIn positiveMoodWords t : ℚ) - (countIn negativeMoodWords t : ℚ)) * 0.5))
      ∧ 1 ≤ assessMood t ∧ assessMood t ≤ 10)
    ∧ (assessAnxiety t = max 1.0 (min 10.0 (3.0 + (countIn anxietyIndicators t : ℚ) * 1.5))
      ∧ 1 ≤ assessAnxiety t ∧ assessAnxiety t ≤ 10) := by
  have hm : assessMood t = max 1.0 (min 10.0 (5.0 +
      ((countIn positiveMoodWords t : ℚ) - (countIn negativeMoodWords t : ℚ)) * 0.5)) := rfl
  have ha : assessAnxiety t
      = max 1.0 (min 10.0 (3.0 + (countIn anxietyIndicators t : ℚ) * 1.5)) := rfl
  refine ⟨⟨hm, ?_, ?_⟩, ha, ?_, ?_⟩ <;>
    first
      | (rw [hm]; exact clamp_lower _)
      | (rw [hm]; exact clamp_upper _)
      | (rw [ha]; exact clamp_lower _)
      | (rw [ha]; exact clamp_upper _)

theorem appendIfNew_grows (acc : List String) (s : String) :
    acc <+: appendIfNew acc s := by
  unfold appendIfNew
  split
  · exact List.prefix_rfl
  · exact ⟨[s], rfl⟩

theorem foldl_appendIfNew_grows (l : List String) :
    ∀ acc, acc <+: l.foldl appendIfNew acc := by
  induction l with
  | nil => intro acc; exact List.prefix_rfl
  | cons x l ih =>
    intro acc
    exact (appendIfNew_grows acc x).trans (ih (appendIfNew acc x))

theorem mem_appendIfNew (acc : List String) (x s : String) :
    s ∈ appendIfNew acc x ↔ s ∈ acc ∨ s = x := by
  unfold appendIfNew
  by_cases hx : x ∈ acc
  · rw [if_pos hx]
    constructor
    · exact Or.inl
    · rintro (h | h)
      · exact h
      · exact h ▸ hx
  · rw [if_neg hx]
    simp

theorem mem_foldl_appendIfNew (l : List String) :
    ∀ acc s, s ∈ l.foldl appendIfNew acc ↔ s ∈ acc ∨ s ∈ l := by
  induction l with
  | nil => intro acc s; simp
  | cons x l ih =>
    intro acc s
    rw [List.foldl_cons, ih, mem_appendIfNew]
    simp [or_assoc]

theorem nodup_appendIfNew (acc : List String) (x : String) (h : acc.Nodup) :
    (appendIfNew acc x).Nodup := by
  unfold appendIfNew
  by_cases hx : x ∈ acc
  · rw [if_pos hx]
    exact h
  · rw [if_neg hx, ← List.concat_eq_append]
    exact List.Nodup.concat hx h

theorem nodup_foldl_appendIfNew (l : List String) :
    ∀ acc, acc.Nodup → (l.foldl appendIfNew acc).Nodup := by
  induction l with
  | nil => intro acc h; exact h
  | cons x l ih =>
    intro acc h
    exact ih (appendIfNew acc x) (nodup_appendIfNew acc x h)

/-- Claim C8: `update_therapeutic_assessment` smooths mood and anxiety with
alpha = 0.3, deduplicates coping strategies against what is already
present (membership equation, no-duplicate preservation, old list stays a
prefix), and appends exactly one risk tag per crisis turn with no
deduplication (and none otherwise), so neither list ever shrinks. -/
theorem updateTA_shape_true (a : TherapeuticAssessment) (t : String)
    (hcr : (detectCrisis t).1 = true) :
    updateTherapeuticAssessment a t = { a with
      mood_score := (1 - 0.3) * a.mood_score + 0.3 * assessMood t,
      anxiety_level := (1 - 0.3) * a.anxiety_level + 0.3 * assessAnxiety t,
      coping_strategies := (identifyCopingStrategies t).foldl appendIfNew a.coping_strategies,
      risk_factors := a.risk_factors ++ [crisisTag (detectCrisis t).2] } := by
  simp [updateTherapeuticAssessment, hcr]

theorem updateTA_shape_false (a : TherapeuticAssessment) (t : String)
    (hcr : (detectCrisis t).1 = false) :
    updateTherapeuticAssessment a t = { a with
      mood_score := (1 - 0.3) * a.mood_score + 0.3 * assessMood t,
      anxiety_level := (1 - 0.3) * a.anxiety_level + 0.3 * assessAnxiety t,
      coping_strategies := (identifyCopingStrategies t).foldl appendIfNew a.coping_strategies } := by
  simp [updateTherapeuticAssessment, hcr]

theorem aria_C8_update_assessment (a : TherapeuticAssessment) (t : String) :
    (updateTherapeuticAssessment a t).mood_score
      = 0.7 * a.mood_score + 0.3 * assessMood t
    ∧ (updateTherapeuticAssessment a t).anxiety_level
      = 0.7 * a.anxiety_level + 0.3 * assessAnxiety t
    ∧ a.coping_strategies <+: (updateTherapeuticAssessment a t).coping_strategies
    ∧ (∀ s, s ∈ (updateTherapeuticAssessment a t).coping_strategies ↔
        s ∈ a.coping_strategies ∨ s ∈ identifyCopingStrategies t)
    ∧ (a.coping_strategies.Nodup → (updateTherapeuticAssessment a t).coping_strategies.Nodup)
    ∧ ((detectCrisis t).1 = true →
        (updateTherapeuticAssessment a t).risk_factors
          = a.risk_factors ++ [crisisTag (detectCrisis t).2])
    ∧ ((detectCrisis t).1 = false →
        (updateTherapeuticAssessment a t).risk_factors = a.risk_factors) := by
  cases hcr : (detectCrisis t).1
  · rw [updateTA_shape_false a t hcr]
    refine ⟨by norm_num, by norm_num,
      foldl_appendIfNew_grows _ _,
      fun s => mem_foldl_appendIfNew _ _ s,
      nodup_foldl_appendIfNew _ _, ?_, ?_⟩
    · intro h
      simp [hcr] at h
    · intro _
      rfl
  · rw [updateTA_shape_true a t hcr]
    refine ⟨by norm_num, by norm_num,
      foldl_appendIfNew_grows _ _,
      fun s => mem_foldl_appendIfNew _ _ s,
      nodup_foldl_appendIfNew _ _, ?_, ?_⟩
    · intro _
      rfl
    · intro h
      simp [hcr] at h

/-- Witness for C8: on the scenario message a risk tag is appended to the
fresh assessment, on a neutral message none is, and the coping list built
from a coping-rich message has no duplicates. -/
theorem aria_C8_update_assessment_w :
    (updateTherapeuticAssessment assessment0 crisisMessage).risk_factors
      = assessment0.risk_factors ++ [crisisTag (detectCrisis crisisMessage).2]
    ∧ (updateTherapeuticAssessment assessment0 ("hello")).risk_factors
      = assessment0.risk_factors
    ∧ (updateTherapeuticAssessment assessment0 ("exercise and talk")).coping_strategies.Nodup := by
  refine ⟨(aria_C8_update_assessment assessment0 crisisMessage).2.2.2.2.2.1 (by decide),
    (aria_C8_update_assessment assessment0 ("hello")).2.2.2.2.2.2 (by decide),
    (aria_C8_update_assessment assessment0 ("exercise and talk")).2.2.2.2.1 (by decide)⟩

/-- Claim C7: the update contract of `update_personality_profile` never
completes: its final statement `current_profile.last_updated =
datetime.now()` raises `NameError` on every input, because
analyzers/personality_analyzer.py never imports `datetime`. The smoothing
and the confidence bump computed before that line are lost with the
exception. -/
theorem aria_C7_update_personality_raises (p : PersonalityProfile)
    (jit : PersonalityTrait → ℚ) (t : String) :
    updatePersonalityProfile p jit t = Except.error nameErrorDatetime := rfl

/-- Claim C1: the mode priority chain of `_determine_mode`, stated over
the primitives: any crisis phrase in the message forces CRISIS (whatever
the mood or keywords), otherwise distress forces THERAPEUTIC, otherwise a
low-confidence profile forces ASSESSMENT, otherwise a coaching keyword
forces COACHING, otherwise COMPANION. -/
theorem aria_C1_mode_priority (st : ARIAState) :
    ((∃ w ∈ crisisIndicators, occursIn w st.current_message = true) →
      determineMode st = ConversationMode.CRISIS)
    ∧ ((detectCrisis st.current_message).1 = false →
      (st.therapeutic_assessment.mood_score < 4.0 ∨
        7.0 < st.therapeutic_assessment.anxiety_level) →
      determineMode st = ConversationMode.THERAPEUTIC)
    ∧ ((detectCrisis st.current_message).1 = false →
      ¬(st.therapeutic_assessment.mood_score < 4.0 ∨
        7.0 < st.therapeutic_assessment.anxiety_level) →
      st.personality_profile.confidence_score < 0.3 →
      determineMode st = ConversationMode.ASSESSMENT)
    ∧ ((detectCrisis st.current_message).1 = false →
      ¬(st.therapeutic_assessment.mood_score < 4.0 ∨
        7.0 < st.therapeutic_assessment.anxiety_level) →
      ¬(st.personality_profile.confidence_score < 0.3) →
      (∃ w ∈ coachingWords, occursIn w st.current_message = true) →
      determineMode st = ConversationMode.COACHING)
    ∧ ((detectCrisis st.current_message).1 = false →
      ¬(st.therapeutic_assessment.mood_score < 4.0 ∨
        7.0 < st.therapeutic_assessment.anxiety_level) →
      ¬(st.personality_profile.confidence_score < 0.3) →
      (∀ w ∈ coachingWords, occursIn w st.current_message = false) →
      determineMode st = ConversationMode.COMPANION) := by
  refine ⟨?_, ?_, ?_, ?_, ?_⟩
  · intro h
    have hb : (detectCrisis st.current_message).1 = true := (detectCrisis_fst_iff _).mpr h
    unfold determineMode
    rw [if_pos hb]
  · intro hb hdist
    unfold determineMode
    rw [if_neg (by simp [hb]), if_pos hdist]
  · intro hb hdist hconf
    unfold determineMode
    rw [if_neg (by simp [hb]), if_neg hdist, if_pos hconf]
  · intro hb hdist hconf hco
    have hany : (coachingWords.any fun w => occursIn w st.current_message) = true := by
      rw [List.any_eq_true]
      obtain ⟨w, hw, hoc⟩ := hco
      exact ⟨w, hw, hoc⟩
    unfold determineMode
    rw [if_neg (by simp [hb]), if_neg hdist, if_neg hconf, if_pos hany]
  · intro hb hdist hconf hco
    have hany : ¬((coachingWords.any fun w => occursIn w st.current_message) = true) := by
      rw [List.any_eq_true]
      rintro ⟨w, hw, hoc⟩
      rw [hco w hw] at hoc
      exact absurd hoc (by simp)
    unfold determineMode
    rw [if_neg (by simp [hb]), if_neg hdist, if_neg hconf, if_neg hany]

/-- Witness for C1: all five branches at concrete turns; in particular the
crisis turn also has mood 2 and a coaching keyword, and still selects
CRISIS. -/
theorem aria_C1_mode_priority_w :
    determineMode stCrisisMix = ConversationMode.CRISIS
    ∧ determineMode stLowMood = ConversationMode.THERAPEUTIC
    ∧ determineMode stNewUser = ConversationMode.ASSESSMENT
    ∧ determineMode stCoaching = ConversationMode.COACHING
    ∧ determineMode stSmallTalk = ConversationMode.COMPANION := by
  refine ⟨(aria_C1_mode_priority stCrisisMix).1 ⟨("hopeless"), by decide, by decide⟩,
    (aria_C1_mode_priority stLowMood).2.1 (by decide)
      (Or.inl (by norm_num [stLowMood, initialTurnState])),
    (aria_C1_mode_priority stNewUser).2.2.1 (by decide)
      (by norm_num [stNewUser, initialTurnState])
      (by norm_num [stNewUser, initialTurnState]),
    (aria_C1_mode_priority stCoaching).2.2.2.1 (by decide)
      (by norm_num [stCoaching, initialTurnState])
      (by norm_num [stCoaching, initialTurnState])
      ⟨("improve"), by decide, by decide⟩,
    (aria_C1_mode_priority stSmallTalk).2.2.2.2 (by decide)
      (by norm_num [stSmallTalk, initialTurnState])
      (by norm_num [stSmallTalk, initialTurnState])
      (by decide)⟩

/-- Counterexample for C2: with a crisis detector that raises, the
workflow run from `_determine_mode` propagates the exception (no state
with CRISIS mode is ever produced) and the `process_message` boundary
turns it into the fixed generic apology — exactly the "generic failure
response" the claim says must not happen. -/
theorem aria_C2_crisis_failure_cex :
    (runFromDetermineModeWith failingDetector (Except.ok ("hi")) sealGen0 stDetectorTurn).2
      = Except.error ("detector failure")
    ∧ processBoundary
        (runFromDetermineModeWith failingDetector (Except.ok ("hi")) sealGen0 stDetectorTurn).2
      = apologyResponse :=
  ⟨rfl, rfl⟩

/-- Claim C2 (amended): if crisis detection raises during mode
determination, the exception propagates unchanged out of the workflow
(there is no handler in `_determine_mode`), and `process_message` answers
with the fixed generic apology — the turn is handled as a generic
failure, not as a crisis. -/
theorem aria_C2_detector_failure (det : String → Except String (Bool × ℚ))
    (llm : Except String String) (gen : ARIAState → SEALEdit) (st : ARIAState)
    (e : String) (h : det st.current_message = Except.error e) :
    (runFromDetermineModeWith det llm gen st).2 = Except.error e
    ∧ processBoundary (runFromDetermineModeWith det llm gen st).2 = apologyResponse := by
  have hrun : runFromDetermineModeWith det llm gen st = ([], Except.error e) := by
    unfold runFromDetermineModeWith determineModeWith
    rw [h]
  rw [hrun]
  exact ⟨rfl, rfl⟩

/-- Witness for C2 (amended): a concrete raising detector on a concrete
turn yields the propagated error and the apology. -/
theorem aria_C2_detector_failure_w :
    (runFromDetermineModeWith failingDetectorB (Except.error ("llm down")) sealGen0
        stDetectorTurnB).2 = Except.error ("boom")
    ∧ processBoundary
        (runFromDetermineModeWith failingDetectorB (Except.error ("llm down")) sealGen0
          stDetectorTurnB).2 = apologyResponse :=
  aria_C2_detector_failure failingDetectorB (Except.error ("llm down")) sealGen0
    stDetectorTurnB ("boom") rfl

/-- Claim C10: `_get_context` always evaluates the stage graph from
`"initial"`; from there the only outgoing edge is the `first_message`
edge to `"greeting"`, so the stage stored in `graph_context` is
`"greeting"` exactly when the history is empty and `"initial"` otherwise —
no other stage is reachable through the orchestration pipeline. -/
theorem aria_C10_stage_invariant (st : ARIAState) :
    getNextState ("initial") st
      = (if st.conversation_history.length = 0 then ("greeting") else ("initial"))
    ∧ ((getContextNode st).graph_context.map GraphContext.current_state
        = some (if st.conversation_history.length = 0 then ("greeting") else ("initial")))
    ∧ ((getContextNode st).graph_context.map GraphContext.current_state = some ("greeting")
      ∨ (getContextNode st).graph_context.map GraphContext.current_state
          = some ("initial")) := by
  have hs : successors ("initial") = [("greeting")] := by decide
  have hc : edgeCondition ("initial") ("greeting") = ("first_message") := by decide
  have h1 : getNextState ("initial") st
      = (if st.conversation_history.length = 0 then ("greeting") else ("initial")) := by
    unfold getNextState
    rw [hs]
    simp only [List.find?, List.isEmpty_cons, Bool.false_eq_true, if_false]
    rw [hc]
    have hev : evalTransitionCondition ("first_message") st
        = (st.conversation_history.length == 0) := rfl
    rw [hev]
    cases hh : st.conversation_history.length == 0 with
    | true => simp_all
    | false => simp_all
  have h2 : (getContextNode st).graph_context.map GraphContext.current_state
      = some (getNextState ("initial") st) := rfl
  refine ⟨h1, by rw [h2, h1], ?_⟩
  rw [h2, h1]
  cases hh : st.conversation_history.length == 0 with
  | true => simp_all
  | false => simp_all

/-- Counterexample for C6: in the C6 scenario (mood 8.0, anxiety 2.0, mode
not CRISIS) the neutral-mood guard is false because it requires
`mood_score <= 7.0`, so no guard on `mood_check` matches and
`get_next_state` stays at `mood_check`; it does not return
`companion_mode` as the claim states. -/
theorem aria_C6_first_match_cex :
    getNextState ("mood_check") stMoodEight = "mood_check"
    ∧ ("mood_check" : String) ≠ ("companion_mode") := by
  constructor
  · have hs : successors ("mood_check")
        = [("therapeutic_mode"), ("companion_mode"), ("crisis_intervention")] := by decide
    have hc1 : edgeCondition ("mood_check") ("therapeutic_mode")
        = ("distress_detected") := by decide
    have hc2 : edgeCondition ("mood_check") ("companion_mode") = ("neutral_mood") := by decide
    have hc3 : edgeCondition ("mood_check") ("crisis_intervention")
        = ("crisis_detected") := by decide
    have h1 : evalTransitionCondition ("distress_detected") stMoodEight = false := by
      show decide ((8.0 : ℚ) < 4.0 ∨ (7.0 : ℚ) < 2.0) = false
      exact decide_eq_false (by norm_num)
    have h2 : evalTransitionCondition ("neutral_mood") stMoodEight = false := by
      show decide ((4.0 : ℚ) ≤ 8.0 ∧ (8.0 : ℚ) ≤ 7.0 ∧ (2.0 : ℚ) ≤ 7.0) = false
      exact decide_eq_false (by norm_num)
    have h3 : evalTransitionCondition ("crisis_detected") stMoodEight = false := by
      show decide (stMoodEight.conversation_mode = ConversationMode.CRISIS) = false
      exact decide_eq_false (by decide)
    unfold getNextState
    rw [hs]
    simp only [List.find?, List.isEmpty_cons, Bool.false_eq_true, if_false]
    rw [hc1, hc2, hc3, h1, h2, h3]
  · decide

/-- Claim C6 (amended): from `mood_check` with anxiety 2.0 and the mode
not CRISIS, evaluating the outgoing edges in declared order: at mood 8.0
no guard matches (the neutral-mood guard requires mood at most 7.0) and
`get_next_state` stays at `mood_check`; at a genuinely neutral mood 6.0
the distress guard (first in order) is false and the neutral-mood guard
(second) is true, so it returns `companion_mode`, not `therapeutic_mode`,
confirming first-match-in-declared-order semantics. -/
theorem aria_C6_first_match (st : ARIAState)
    (hanx : st.therapeutic_assessment.anxiety_level = 2.0)
    (hmode : st.conversation_mode ≠ ConversationMode.CRISIS) :
    (st.therapeutic_assessment.mood_score = 8.0 →
      getNextState ("mood_check") st = "mood_check")
    ∧ (st.therapeutic_assessment.mood_score = 6.0 →
      getNextState ("mood_check") st = "companion_mode") := by
  have hs : successors ("mood_check")
      = [("therapeutic_mode"), ("companion_mode"), ("crisis_intervention")] := by decide
  have hc1 : edgeCondition ("mood_check") ("therapeutic_mode")
      = ("distress_detected") := by decide
  have hc2 : edgeCondition ("mood_check") ("companion_mode") = ("neutral_mood") := by decide
  have hc3 : edgeCondition ("mood_check") ("crisis_intervention")
      = ("crisis_detected") := by decide
  have he1 : evalTransitionCondition ("distress_detected") st
      = decide (st.therapeutic_assessment.mood_score < 4.0 ∨
          7.0 < st.therapeutic_assessment.anxiety_level) := rfl
  have he2 : evalTransitionCondition ("neutral_mood") st
      = decide (4.0 ≤ st.therapeutic_assessment.mood_score ∧
          st.therapeutic_assessment.mood_score ≤ 7.0 ∧
          st.therapeutic_assessment.anxiety_level ≤ 7.0) := rfl
  have h3 : evalTransitionCondition ("crisis_detected") st = false := by
    show decide (st.conversation_mode = ConversationMode.CRISIS) = false
    exact decide_eq_false hmode
  constructor
  · intro hmood
    have h1 : evalTransitionCondition ("distress_detected") st = false := by
      rw [he1, hmood, hanx]
      exact decide_eq_false (by norm_num)
    have h2 : evalTransitionCondition ("neutral_mood") st = false := by
      rw [he2, hmood, hanx]
      exact decide_eq_false (by norm_num)
    unfold getNextState
    rw [hs]
    simp only [List.find?, List.isEmpty_cons, Bool.false_eq_true, if_false]
    rw [hc1, hc2, hc3, h1, h2, h3]
  · intro hmood
    have h1 : evalTransitionCondition ("distress_detected") st = false := by
      rw [he1, hmood, hanx]
      exact decide_eq_false (by norm_num)
    have h2 : evalTransitionCondition ("neutral_mood") st = true := by
      rw [he2, hmood, hanx]
      exact decide_eq_true (by norm_num)
    unfold getNextState
    rw [hs]
    simp only [List.find?, List.isEmpty_cons, Bool.false_eq_true, if_false]
    rw [hc1, hc2, hc3, h1, h2, h3]

/-- Witness for C6 (amended): both branches at the concrete `mood_check`
contexts. -/
theorem aria_C6_first_match_w :
    getNextState ("mood_check") stMoodEight = "mood_check"
    ∧ getNextState ("mood_check") stMoodSix = "companion_mode" :=
  ⟨(aria_C6_first_match stMoodEight rfl (by decide)).1 rfl,
   (aria_C6_first_match stMoodSix rfl (by decide)).2 rfl⟩

theorem applySealNode_fields (gen : ARIAState → SEALEdit) (s : ARIAState) :
    (applySealNode gen s).2.session_id = s.session_id
    ∧ (applySealNode gen s).2.current_message = s.current_message
    ∧ (applySealNode gen s).2.response = s.response := by
  unfold applySealNode
  dsimp only
  split_ifs <;> exact ⟨rfl, rfl, rfl⟩

/-- Claim C9: a failed generation call does not abort the pipeline: the
fallback text with confidence 0.3 is stored and the run still passes
through the adaptation stage into the memory stage, where the turn is
recorded by `add_conversation`; a successful call stores the generated
text with confidence 0.8 and is recorded the same way. -/
theorem aria_C9_generation_fallback (e text : String) (gen : ARIAState → SEALEdit)
    (st : ARIAState) :
    (generateResponseNode (Except.error e) st).response = fallbackResponse
    ∧ (generateResponseNode (Except.error e) st).confidence = 0.3
    ∧ Effect.addConversation st.session_id st.current_message fallbackResponse
        ∈ (runFromGenerateResponse (Except.error e) gen st).1
    ∧ (generateResponseNode (Except.ok text) st).response = text
    ∧ (generateResponseNode (Except.ok text) st).confidence = 0.8
    ∧ Effect.addConversation st.session_id st.current_message text
        ∈ (runFromGenerateResponse (Except.ok text) gen st).1 := by
  have key : ∀ llm : Except String String,
      (runFromGenerateResponse llm gen st).1
        = (applySealNode gen (generateResponseNode llm st)).1
          ++ [Effect.addConversation
                (applySealNode gen (generateResponseNode llm st)).2.session_id
                (applySealNode gen (generateResponseNode llm st)).2.current_message
                (applySealNode gen (generateResponseNode llm st)).2.response] :=
    fun llm => rfl
  refine ⟨rfl, rfl, ?_, rfl, rfl, ?_⟩
  · obtain ⟨hs1, hm1, hr1⟩ := applySealNode_fields gen (generateResponseNode (Except.error e) st)
    have g1 : (generateResponseNode (Except.error e) st).session_id = st.session_id := rfl
    have g2 : (generateResponseNode (Except.error e) st).current_message
        = st.current_message := rfl
    have g3 : (generateResponseNode (Except.error e) st).response = fallbackResponse := rfl
    rw [key, hs1, hm1, hr1, g1, g2, g3]
    exact List.mem_append_right _ (List.mem_singleton_self _)
  · obtain ⟨hs1, hm1, hr1⟩ := applySealNode_fields gen (generateResponseNode (Except.ok text) st)
    have g1 : (generateResponseNode (Except.ok text) st).session_id = st.session_id := rfl
    have g2 : (generateResponseNode (Except.ok text) st).current_message
        = st.current_message := rfl
    have g3 : (generateResponseNode (Except.ok text) st).response = text := rfl
    rw [key, hs1, hm1, hr1, g1, g2, g3]
    exact List.mem_append_right _ (List.mem_singleton_self _)

/-- Claim C4 (code evaluation): the conditional-edge table of
`_build_workflow` does route CRISIS straight to `generate_response` and
every other mode through `get_context`, and the scenario message is
detected as a crisis; but the full run on that message aborts in
`update_personality` with the `NameError` from the missing `datetime`
import, before `update_therapeutic` or `generate_response` can run: no
effect is emitted (in particular the turn is never recorded and no
response is produced) and no risk-factor entry can be appended. -/
theorem aria_C4_crisis_pipeline_bug :
    (detectCrisis crisisMessage).1 = true
    ∧ routeTarget ConversationMode.CRISIS = "generate_response"
    ∧ routeTarget ConversationMode.THERAPEUTIC = "get_context"
    ∧ routeTarget ConversationMode.COMPANION = "get_context"
    ∧ routeTarget ConversationMode.ASSESSMENT = "get_context"
    ∧ routeTarget ConversationMode.COACHING = "get_context"
    ∧ runWorkflow {} [] (fun _ => 0) (Except.ok ("I am here with you")) sealGen0 stCrisisRun
        = ([], Except.error nameErrorDatetime) :=
  ⟨by decide, rfl, rfl, rfl, rfl, rfl, rfl⟩
